import Mathlib

/-!
Verification development for mtx-changer-python.py (v1.32), a drop-in
replacement for Bacula's mtx-changer script.  We shallowly embed the
status-output parsing (list/listall), the volume-lookup functions
(getvolname/loaded), and the load/unload/transfer/cleaning control flow,
and prove the specified properties about them.

Modelling conventions:
* One `mtx status` line per element is represented structurally by
  `StatusLine`; `elemStr` gives the exact text that the `re.findall`
  calls in list()/listall() capture for that line (the regexes with a
  trailing `\w` drop trailing non-word characters, which is why a full
  drive without a VolumeTag loses its closing parenthesis).
  Volume tags are assumed to be the nonempty alphanumeric strings that
  mtx emits (`\w+`); an absent VolumeTag is `none`.
* `sys.exit(n)` is modelled by the `Res.exit n` constructor; a normal
  Python `return v` by `Res.ret v`.  A `Trace` records the observable
  side effects claims talk about: how many times each external mtx/mt
  command was invoked, how many cleaning cycles ran, and the lines
  printed to stdout.  Log-file output is configuration-dependent
  logging infrastructure, out of the modelled core.
* External tool results (return code and stderr text) are inputs,
  supplied through `Env`, one field per call site in the modelled flow.
-/

namespace MtxChanger

/-- One line of `mtx status` output: a data-transfer element (drive),
a storage element (slot), or an import/export storage element, each
empty or full, with an optional VolumeTag.  A full drive also records
the slot its volume was loaded from. -/
inductive StatusLine where
  | driveEmpty (idx : Nat)
  | driveFull (idx : Nat) (src : Nat) (tag : Option String)
  | slotEmpty (idx : Nat)
  | slotFull (idx : Nat) (tag : Option String)
  | ieEmpty (idx : Nat)
  | ieFull (idx : Nat) (tag : Option String)
deriving DecidableEq

/-- The exact element text the findall regexes in list()/listall()
capture for each status-line shape.  The drive patterns end in `.*\w`
(list line 386, listall line 437), so for a full drive without a
VolumeTag ("Data Transfer Element 0:Full (Storage Element 5 Loaded)")
the captured text stops at the last word character and drops the
closing parenthesis. -/
def elemStr : StatusLine → String
  | .driveEmpty i => "Data Transfer Element " ++ toString i ++ ":Empty"
  | .driveFull i s (some v) =>
      "Data Transfer Element " ++ toString i ++ ":Full (Storage Element "
        ++ toString s ++ " Loaded):VolumeTag = " ++ v
  | .driveFull i s none =>
      "Data Transfer Element " ++ toString i ++ ":Full (Storage Element "
        ++ toString s ++ " Loaded"
  | .slotEmpty i => "Storage Element " ++ toString i ++ ":Empty"
  | .slotFull i (some v) => "Storage Element " ++ toString i ++ ":Full :VolumeTag=" ++ v
  | .slotFull i none => "Storage Element " ++ toString i ++ ":Full"
  | .ieEmpty i => "Storage Element " ++ toString i ++ " IMPORT/EXPORT:Empty"
  | .ieFull i (some v) =>
      "Storage Element " ++ toString i ++ " IMPORT/EXPORT:Full :VolumeTag=" ++ v
  | .ieFull i none => "Storage Element " ++ toString i ++ " IMPORT/EXPORT:Full"

/-- Configuration flags that affect the listing functions:
`include_import_export` and `vxa_packetloader`. -/
structure Cfg where
  includeIE : Bool
  vxa : Bool
deriving DecidableEq

/-- Matches `re.findall(r'Data Transfer Element \d+:.*\w', ...)` (listall line 437). -/
def isDriveLine : StatusLine → Bool
  | .driveEmpty _ => true
  | .driveFull _ _ _ => true
  | _ => false

/-- Matches `re.findall(r'Storage Element \d+:.*\w', ...)` (listall line 438);
import/export lines have a space, not a colon, after the element number, so
they do not match. -/
def isSlotLine : StatusLine → Bool
  | .slotEmpty _ => true
  | .slotFull _ _ => true
  | _ => false

/-- Matches `re.findall(r'Storage Element \d+ IMPORT.EXPORT.*\w', ...)` (listall line 440). -/
def isIELine : StatusLine → Bool
  | .ieEmpty _ => true
  | .ieFull _ _ => true
  | _ => false

/-- Matches `re.findall(r'Data Transfer Element \d+:Full.*\w', ...)` (list line 386). -/
def isDriveFullLine : StatusLine → Bool
  | .driveFull _ _ _ => true
  | _ => false

/-- Matches `re.findall(r'Storage Element \d+:Full.*', ...)` (list line 387). -/
def isSlotFullLine : StatusLine → Bool
  | .slotFull _ _ => true
  | _ => false

/-- Matches `re.findall(r'Storage Element \d+ IMPORT.EXPORT:Full.*\w', ...)`
(list line 389).  The trailing `.*\w` demands a word character after
`Full`, so a full import/export line without a VolumeTag ("Storage
Element 42 IMPORT/EXPORT:Full") is not captured at all. -/
def isIEFullLine : StatusLine → Bool
  | .ieFull _ (some _) => true
  | _ => false

/-- The `mtx_elements_list` built by listall() (lines 437-442): all drive
lines first, then all storage-slot lines, then (when
`include_import_export`) all import/export lines, each sublist in
status-text order. -/
def listallElems (cfg : Cfg) (es : List StatusLine) : List StatusLine :=
  es.filter isDriveLine ++ es.filter isSlotLine
    ++ (if cfg.includeIE then es.filter isIELine else [])

/-- The `mtx_elements_list` built by list() (lines 386-398): only full
elements, storage slots first, then import/export slots, then drives
last (the deliberate reordering noted in the 20231008 comment). -/
def listElems (cfg : Cfg) (es : List StatusLine) : List StatusLine :=
  es.filter isSlotFullLine
    ++ (if cfg.includeIE then es.filter isIEFullLine else [])
    ++ es.filter isDriveFullLine

/-- Effect of the re.sub chain in listall()'s loop (lines 446-455) on one
captured element.  A full drive with a tag becomes `D:idx:F:src:tag`
(line 448); a full drive without a tag matches none of the patterns and
passes through unchanged.  A full storage slot without a tag falls to
the `S:\1:F:NO_BARCODE` substitution (line 451).  Import/export
substitutions (lines 453-454) run only when `include_import_export`,
and have no NO_BARCODE fallback, so a tagless full import/export line
also passes through unchanged. -/
def listallLine (cfg : Cfg) : StatusLine → String
  | .driveEmpty i => "D:" ++ toString i ++ ":E"
  | .driveFull i s (some v) => "D:" ++ toString i ++ ":F:" ++ toString s ++ ":" ++ v
  | .driveFull i s none => elemStr (.driveFull i s none)
  | .slotEmpty i => "S:" ++ toString i ++ ":E"
  | .slotFull i (some v) => "S:" ++ toString i ++ ":F:" ++ v
  | .slotFull i none => "S:" ++ toString i ++ ":F:NO_BARCODE"
  | .ieEmpty i => if cfg.includeIE then "I:" ++ toString i ++ ":E" else elemStr (.ieEmpty i)
  | .ieFull i (some v) =>
      if cfg.includeIE then "I:" ++ toString i ++ ":F:" ++ v else elemStr (.ieFull i (some v))
  | .ieFull i none => elemStr (.ieFull i none)

/-- Effect of the re.sub chain in list()'s non-vxa loop body
(lines 404-416) on one captured element.  A full drive with a tag
becomes `src:tag` (line 404 replaces the match, whose `(\w)` group takes
one character, and the remaining tag characters stay appended); a full
storage slot with a tag becomes `idx:tag` (line 415, same single-char
group mechanism); a tagless full storage slot becomes
`S:idx:F:NO_BARCODE` (line 416); import/export with a tag becomes
`idx:tag` (line 414, only when `include_import_export`); a tagless full
drive matches nothing and passes through raw.  (A tagless full
import/export line is never captured by the findall, see
`isIEFullLine`, so its case below is unreachable from `list`.) -/
def listLine (cfg : Cfg) : StatusLine → String
  | .driveFull _ s (some v) => toString s ++ ":" ++ v
  | .driveFull i s none => elemStr (.driveFull i s none)
  | .slotFull i (some v) => toString i ++ ":" ++ v
  | .slotFull i none => "S:" ++ toString i ++ ":F:NO_BARCODE"
  | .ieFull i (some v) =>
      if cfg.includeIE then toString i ++ ":" ++ v else elemStr (.ieFull i (some v))
  | .ieFull i none => elemStr (.ieFull i none)
  | e => elemStr e

/-- The accumulation `mtx_elements_txt += tmp_txt + ('' if element ==
mtx_elements_list[-1] else '\n')` of listall() line 455: a newline
separates elements except after any element equal to the list's last
element. -/
def joinAux (f : StatusLine → String) (lst : Option StatusLine) : List StatusLine → String
  | [] => ""
  | e :: r => f e ++ (if some e = lst then "" else "\n") ++ joinAux f lst r

/-- listall() (lines 421-457): build the element list, transform each
element, and accumulate the output text. -/
def listall (cfg : Cfg) (es : List StatusLine) : String :=
  joinAux (listallLine cfg) (listallElems cfg es).getLast? (listallElems cfg es)

/-- The loop body of list() (lines 403-417).  The accumulation into
`mtx_elements_txt` sits inside the `else` (non-vxa) branch only, so
when `vxa_packetloader` is true nothing is ever appended. -/
def listAccum (cfg : Cfg) (lst : Option StatusLine) : List StatusLine → String
  | [] => ""
  | e :: r =>
      (if cfg.vxa then "" else listLine cfg e ++ (if some e = lst then "" else "\n"))
        ++ listAccum cfg lst r

/-- list() (lines 370-419): build the full-elements list and run the loop. -/
def list (cfg : Cfg) (es : List StatusLine) : String :=
  listAccum cfg (listElems cfg es).getLast? (listElems cfg es)

/-- Well-formedness of one output line in the sense of the stable stdout
contract (section 6 of the spec): element lines start with a `D:`, `S:`
or `I:` kind marker. -/
def wellFormedElemLine (s : String) : Bool :=
  s.take 2 == "D:" || s.take 2 == "S:" || s.take 2 == "I:"

/-- Effect of `re.search('[SI]:' + slot + ':.:(.*)', all_slots)`
(getvolname, lines 465/473/480/498) on one listall output line.  Only
`S:slot:F:vol` / `I:slot:F:vol` lines match (empty-element lines
`S:slot:E` have nothing after the E); a tagless full storage slot was
rendered as `S:slot:F:NO_BARCODE`, so it matches with volume
NO_BARCODE; a tagless full import/export element was rendered as raw
unparsed text, which the pattern does not match. -/
def siFullMatch (slotArg : Nat) : StatusLine → Option String
  | .slotFull i (some v) => if i = slotArg then some v else none
  | .slotFull i none => if i = slotArg then some "NO_BARCODE" else none
  | .ieFull i (some v) => if i = slotArg then some v else none
  | _ => none

/-- Effect of `re.search('D:' + drive_index + ':F:\d+:(.*)', all_slots)`
(getvolname, lines 487/493) on one listall output line: only a full
drive with a VolumeTag was rendered in the `D:idx:F:src:vol` shape. -/
def dFullMatch (idxArg : Nat) : StatusLine → Option String
  | .driveFull i _ (some v) => if i = idxArg then some v else none
  | _ => none

/-- getvolname() for mtx_cmd = 'load' (lines 479-491): look the source
slot up in the all_slots text (the listall output); if that fails, look
whether the target drive itself holds a volume (the "slot might be in a
drive" fallback); otherwise return empty.  The searches scan the
listall output, so they run over `listallElems` in listall order. -/
def getvolname_load (cfg : Cfg) (es : List StatusLine) (slotArg idxArg : Nat) :
    String × String :=
  match (listallElems cfg es).findSome? (siFullMatch slotArg) with
  | some v => (v, "")
  | none =>
      match (listallElems cfg es).findSome? (dFullMatch idxArg) with
      | some v => (v, "")
      | none => ("", "")

/-- loaded() (lines 340-368) applied to a status snapshot: search for
the first `Data Transfer Element idx:Full` line.  If it carries a
VolumeTag, the re.sub of line 357 extracts the source slot number; if
the drive line has no VolumeTag the re.sub does not match, the line is
returned unchanged, and `split()[0]` of it is the word "Data".  With no
match the function returns '0'. -/
def loaded (es : List StatusLine) (idxArg : Nat) : String :=
  match es.findSome? (fun e =>
      match e with
      | .driveFull i s tag => if i = idxArg then some (s, tag) else none
      | _ => none) with
  | some (s, some _) => toString s
  | some (_, none) => "Data"
  | none => "0"

/-- Result of one external tool invocation: its return code and its
stderr text (what `chk_cmd_result` and the failure branches print). -/
structure ToolRes where
  rc : Nat
  err : String
deriving DecidableEq

/-- Observable side effects of a modelled execution: counts of external
mtx/mt invocations, drive-status polls and 1-second sleeps in
wait_for_drive, cleaning cycles started (clean() entries), checkdrive()
entries, and the lines printed to stdout. -/
structure Trace where
  polls : Nat := 0
  sleeps1 : Nat := 0
  mtxLoads : Nat := 0
  mtxUnloads : Nat := 0
  mtxTransfers : Nat := 0
  cleanCalls : Nat := 0
  checkdrives : Nat := 0
  stdout : List String := []
deriving DecidableEq

/-- The empty starting trace. -/
def Trace.init : Trace := {}

/-- Append one printed line to stdout. -/
def pushOut (t : Trace) (s : String) : Trace :=
  { t with stdout := t.stdout ++ [s] }

/-- Outcome of a modelled Python function: a normal `return v`, or a
`sys.exit code` (including an uncaught exception, which ends the
process with status 1).  Both carry the trace accumulated so far. -/
inductive Res (α : Type) where
  | ret (v : α) (t : Trace)
  | exit (code : Nat) (t : Trace)
deriving DecidableEq

/-- The returned value, when the function returned normally. -/
def Res.retVal? {α : Type} : Res α → Option α
  | .ret v _ => some v
  | .exit _ _ => none

/-- The process exit code, when the function aborted the process. -/
def Res.exitCode? {α : Type} : Res α → Option Nat
  | .ret _ _ => none
  | .exit c _ => some c

/-- The trace accumulated by the call, however it ended. -/
def Res.trace {α : Type} : Res α → Trace
  | .ret _ t => t
  | .exit _ t => t

/-- Whether the call returned normally (no process abort). -/
def Res.isRet {α : Type} : Res α → Bool
  | .ret _ _ => true
  | .exit _ _ => false

/-- Outcome of get_sg_node() (lines 562-636), abstracting the
platform-specific device-node correlation:
`node sg` - a matching sg node was found (lines 604-607 / 629-633);
`unsupported` - neither Linux nor FreeBSD, the `else` branch returns 1
(line 636); `cmdFail rc err` - one of the ls/lsscsi/camcontrol calls
returned non-zero and `chk_cmd_result` exited the process with that
status after printing the stderr; `noMatch` - the correlating re.search
found nothing, so the function falls off the end returning Python None
(there is no `return 1` on the Linux/FreeBSD paths). -/
inductive SgOutcome where
  | node (sg : String)
  | unsupported
  | cmdFail (rc : Nat) (err : String)
  | noMatch
deriving DecidableEq

/-- What get_sg_node() returns to checkdrive(): an sg node string, the
integer 1, or Python None. -/
inductive SgRet where
  | sgNode (sg : String)
  | one
  | pynone
deriving DecidableEq

/-- Inputs of one modelled invocation: the command-line strings, the
getvolname result, the configuration booleans, and the outcome of every
external tool call the flow can make, one field per call site.
`loadedRes` fields hold what loaded() returns at the respective call
site ('0' for an empty drive, the source-slot number otherwise); the
paired ToolRes is the `mtx status` call inside that loaded() call,
whose failure exits the process via chk_cmd_result. -/
structure Env where
  slt : String
  drv_dev : String
  drv_idx : String
  vol : String × String
  offline : Bool
  chk_drive : Bool
  auto_clean : Bool
  cln_tapes : List (String × String)
  pick : Nat
  loadedStatus : ToolRes
  loadedRes : String
  mtOffline : ToolRes
  mtxUnload : ToolRes
  sgOut : SgOutcome
  sgLogs1 : ToolRes
  sgClean1 : Bool
  sgClean2 : Bool
  clnLoadedStatus : ToolRes
  clnLoadedRes : String
  mtxLoad : ToolRes
  innerLoadedStatus : ToolRes
  innerLoadedRes : String
  innerMtOffline : ToolRes
  innerMtxUnload : ToolRes
  mtxTransfer : ToolRes
  load_wait : Nat
  pollRC : Nat → Nat
  pollErr : Nat → String
  pollFound : Nat → Bool

/-- A call to loaded() (lines 340-368) from load()/unload(): the `mtx
status` inside it goes through chk_cmd_result (line 348), which prints
the stderr and exits the process on a non-zero status; otherwise the
parsed result string is returned. -/
def loadedCall (r : ToolRes) (res : String) (t : Trace) : Res String :=
  if r.rc ≠ 0 then .exit r.rc (pushOut t r.err) else .ret res t

/-- The `mt -f ... offline` step of unload() (lines 851-862), run only
when the `offline` variable is true; its chk_cmd_result exits the
process on failure. -/
def offlineStep (off : Bool) (r : ToolRes) (t : Trace) : Res Unit :=
  if off then
    (if r.rc ≠ 0 then .exit r.rc (pushOut t r.err) else .ret () t)
  else .ret () t

/-- The failure text load() prints before exiting (lines 790-797). -/
def loadFailTxt (drv_dev drv_idx slt v err : String) : String :=
  "Failed to load drive device " ++ drv_dev ++ " (drive index: " ++ drv_idx ++ ") "
    ++ (if v ≠ "" then "with volume (" ++ v ++ ") " else "") ++ "from slot " ++ slt
    ++ " Err: " ++ err

/-- The failure text unload() prints (lines 875-882). -/
def unloadFailTxt (drv_dev drv_idx slt v err : String) : String :=
  "Failed to unload drive device " ++ drv_dev ++ " (drive index: " ++ drv_idx ++ ") "
    ++ (if v ≠ "" then "with volume (" ++ v ++ ") " else "") ++ "to slot " ++ slt
    ++ " Err: " ++ err

/-- The failure text transfer() prints (lines 937-944). -/
def transferFailTxt (slt dst srcV dstV err : String) : String :=
  "Failed to transfer volume " ++ (if srcV ≠ "" then "(" ++ srcV ++ ") " else "(EMPTY) ")
    ++ "from slot " ++ slt ++ " to slot " ++ dst
    ++ (if dstV ≠ "" then " containing volume (" ++ dstV ++ ")" else "")
    ++ " Err: " ++ err

/-- unload() called with cln=True (lines 819-911 with the `if cln:`
branch of line 894 taken): unload the cleaning tape.  The precondition
checks and the offline step run as usual; on mtx failure the error is
printed and the return code is returned (the `if` at line 873 has no
return, so control falls to `return result.returncode` at line 911); on
success the cln branch skips the checkdrive logic and the same
`return result.returncode` runs. -/
def unload_cln (e : Env) (slt : String) (vol : String × String) (t : Trace) : Res Nat :=
  match loadedCall e.innerLoadedStatus e.innerLoadedRes t with
  | .exit c t => .exit c t
  | .ret r t =>
    if r = "0" then
      .ret 1 (pushOut t "Err: Can't unload a drive that is empty, exiting with return code 1")
    else if vol.2 ≠ "" then
      .ret 1 (pushOut t ("Err: Slot " ++ slt ++ " is full with volume (" ++ vol.2
        ++ "), exiting with return code 1"))
    else
      match offlineStep e.offline e.innerMtOffline t with
      | .exit c t => .exit c t
      | .ret _ t =>
        let t := { t with mtxUnloads := t.mtxUnloads + 1 }
        if e.innerMtxUnload.rc ≠ 0 then
          .ret e.innerMtxUnload.rc
            (pushOut t (unloadFailTxt e.drv_dev e.drv_idx slt vol.1 e.innerMtxUnload.err))
        else
          .ret e.innerMtxUnload.rc t

/-- load() called with cln=True from clean() (lines 746-806 with the
`if cln:` branch of line 802 taken): load the cleaning tape.  On mtx
failure the process exits with the tool's status (line 798); on success
the function sleeps clean_wait seconds, unloads the cleaning tape with
cln=True, and falls off the end returning Python None. -/
def load_cln (e : Env) (slt : String) (vol : String × String) (t : Trace) :
    Res (Option Nat) :=
  match loadedCall e.clnLoadedStatus e.clnLoadedRes t with
  | .exit c t => .exit c t
  | .ret r t =>
    if r ≠ "0" then
      .ret (some 1) (pushOut t "Err: Can't load a drive that is full, exiting with return code 1")
    else if vol.1 = "" then
      .ret (some 1) (pushOut t ("Err: Slot " ++ slt
        ++ " is empty. Can't load a drive from an empty slot, exiting with return code 1"))
    else
      let t := { t with mtxLoads := t.mtxLoads + 1 }
      if e.mtxLoad.rc ≠ 0 then
        .exit e.mtxLoad.rc
          (pushOut t (loadFailTxt e.drv_dev e.drv_idx slt vol.1 e.mtxLoad.err))
      else
        match unload_cln e slt vol t with
        | .exit c t => .exit c t
        | .ret _ t => .ret none t

/-- clean() (lines 551-560): pick one cleaning tape (random.choice,
modelled by the env-supplied index `pick` reduced modulo the candidate
count) and load it with cln=True; the load's return value is discarded.
random.choice on an empty list raises IndexError (uncaught, process
status 1) - unreachable from checkdrive, which never calls clean with
an empty candidate list. -/
def clean (e : Env) (t : Trace) : Res Unit :=
  let t := { t with cleanCalls := t.cleanCalls + 1 }
  if e.cln_tapes = [] then .exit 1 t
  else
    let c := e.cln_tapes.getD (e.pick % e.cln_tapes.length) ("", "")
    match load_cln e c.1 (c.2, "") t with
    | .exit cd t => .exit cd t
    | .ret _ t => .ret () t

/-- get_sg_node() (lines 562-636), driven by the env-supplied
platform/correlation outcome. -/
def get_sg_node (e : Env) (t : Trace) : Res SgRet :=
  match e.sgOut with
  | .node s => .ret (.sgNode s) t
  | .unsupported => .ret .one t
  | .cmdFail c err => .exit c (pushOut t err)
  | .noMatch => .ret .pynone t

/-- tapealerts() (lines 638-696): run sg_logs.  chk_cmd_result returns
6 for the special "unit attention" status (line 220), in which case the
call is repeated and the second output is searched (the second return
code is never checked, lines 685-688); any other non-zero status exits
the process; otherwise the first output is searched for "Cleaning
action required".  The env booleans sgClean1/sgClean2 are the outcomes
of that search on the first/second output. -/
def tapealerts (e : Env) (t : Trace) : Res Bool :=
  if e.sgLogs1.rc = 6 then .ret e.sgClean2 t
  else if e.sgLogs1.rc ≠ 0 then .exit e.sgLogs1.rc (pushOut t e.sgLogs1.err)
  else .ret e.sgClean1 t

/-- checkdrive() (lines 698-744): with auto_clean on and no cleaning
tapes, return 1 (lines 703-713); resolve the sg node, returning 1 only
on the unsupported-platform branch (get_sg_node's `return 1`), while a
Python-None result flows into tapealerts(None) and raises an uncaught
TypeError (process status 1); query tapealerts and, when cleaning is
required and auto_clean is on, run clean(); finally return 0. -/
def checkdrive (e : Env) (t : Trace) : Res Nat :=
  let t := { t with checkdrives := t.checkdrives + 1 }
  if e.auto_clean ∧ e.cln_tapes = [] then .ret 1 t
  else
    match get_sg_node e t with
    | .exit c t => .exit c t
    | .ret sgv t =>
      match sgv with
      | .one => .ret 1 t
      | .pynone => .exit 1 t
      | .sgNode _ =>
        match tapealerts e t with
        | .exit c t => .exit c t
        | .ret req t =>
          if req then
            (if e.auto_clean then
              match clean e t with
              | .exit c t => .exit c t
              | .ret _ t => .ret 0 t
            else .ret 0 t)
          else .ret 0 t

/-- unload() called with the default cln=False (lines 819-911): the SD's
Unload operation.  Precondition checks (empty drive / full destination
slot) return 1 without invoking mtx; the optional offline step and the
mtx unload run; on mtx failure the error is printed and the status code
returned; on success, when chk_drive is set, checkdrive() runs and a
result of 1 leads to `return 0` (line 906), any other result falls
through to `return result.returncode` (line 911), which is 0 here. -/
def unload (e : Env) (t : Trace) : Res Nat :=
  match loadedCall e.loadedStatus e.loadedRes t with
  | .exit c t => .exit c t
  | .ret r t =>
    if r = "0" then
      .ret 1 (pushOut t "Err: Can't unload a drive that is empty, exiting with return code 1")
    else if e.vol.2 ≠ "" then
      .ret 1 (pushOut t ("Err: Slot " ++ e.slt ++ " is full with volume (" ++ e.vol.2
        ++ "), exiting with return code 1"))
    else
      match offlineStep e.offline e.mtOffline t with
      | .exit c t => .exit c t
      | .ret _ t =>
        let t := { t with mtxUnloads := t.mtxUnloads + 1 }
        if e.mtxUnload.rc ≠ 0 then
          .ret e.mtxUnload.rc
            (pushOut t (unloadFailTxt e.drv_dev e.drv_idx e.slt e.vol.1 e.mtxUnload.err))
        else
          if e.chk_drive then
            match checkdrive e t with
            | .exit c t => .exit c t
            | .ret v t => if v = 1 then .ret 0 t else .ret e.mtxUnload.rc t
          else .ret e.mtxUnload.rc t

/-- wait_for_drive() (lines 505-533): poll `mt -f ... status` once per
second while `s <= load_wait`, starting at s = 0.  Each poll goes
through chk_cmd_result (process exit on a non-zero mt status); when the
ready marker is found the loop breaks and 0 is returned; otherwise the
loop sleeps one second and increments s.  When the loop exhausts
naturally, s equals load_wait + 1 and 1 is returned.  `rcf`/`errf` give
each poll's mt return code and stderr, `foundf` whether the ready
marker occurs in that poll's output. -/
def wait_for_drive (lw : Nat) (rcf : Nat → Nat) (errf : Nat → String)
    (foundf : Nat → Bool) (s : Nat) (t : Trace) : Res Nat :=
  if h : s ≤ lw then
    let t1 := { t with polls := t.polls + 1 }
    if rcf s ≠ 0 then .exit (rcf s) (pushOut t1 (errf s))
    else if foundf s then .ret 0 t1
    else wait_for_drive lw rcf errf foundf (s + 1) { t1 with sleeps1 := t1.sleeps1 + 1 }
  else .ret 1 t
termination_by lw + 1 - s
decreasing_by simp_wf; omega

/-- load() called with the default cln=False (lines 746-817): the SD's
Load operation.  Precondition checks (full drive / empty source volume
lookup) return 1 without invoking mtx; on mtx failure the error is
printed and the process exits with the tool's status (line 798); on
success, after the optional load_sleep settling delay (a real-time wait
with no other observable effect, not modelled), the result of
wait_for_drive is returned. -/
def load (e : Env) (t : Trace) : Res Nat :=
  match loadedCall e.loadedStatus e.loadedRes t with
  | .exit c t => .exit c t
  | .ret r t =>
    if r ≠ "0" then
      .ret 1 (pushOut t "Err: Can't load a drive that is full, exiting with return code 1")
    else if e.vol.1 = "" then
      .ret 1 (pushOut t ("Err: Slot " ++ e.slt
        ++ " is empty. Can't load a drive from an empty slot, exiting with return code 1"))
    else
      let t := { t with mtxLoads := t.mtxLoads + 1 }
      if e.mtxLoad.rc ≠ 0 then
        .exit e.mtxLoad.rc
          (pushOut t (loadFailTxt e.drv_dev e.drv_idx e.slt e.vol.1 e.mtxLoad.err))
      else wait_for_drive e.load_wait e.pollRC e.pollErr e.pollFound 0 t

/-- transfer() (lines 913-950): a failed precondition (empty source or
full destination) prints and exits the process with status 1 (line
927); on mtx failure the error is printed and the status code is
returned to the caller; on success 0 is returned.  For transfer the
destination slot arrives in the drive_device position. -/
def transfer (e : Env) (t : Trace) : Res Nat :=
  if e.vol.1 = "" ∨ e.vol.2 ≠ "" then
    .exit 1 (pushOut t
      "Err: The source slot is empty, or the destination slot is full, will not even attempt the transfer")
  else
    let t := { t with mtxTransfers := t.mtxTransfers + 1 }
    if e.mtxTransfer.rc ≠ 0 then
      .ret e.mtxTransfer.rc
        (pushOut t (transferFailTxt e.slt e.drv_dev e.vol.1 e.vol.2 e.mtxTransfer.err))
    else .ret 0 t

/-- The volume label of the cleaning tape clean() would pick. -/
def pickedVol (e : Env) : String :=
  (e.cln_tapes.getD (e.pick % e.cln_tapes.length) ("", "")).2

/-- The cleaning-required outcome tapealerts() reports when it does not
abort: the second sg_logs output after a unit-attention retry, the
first otherwise. -/
def cleanReq (e : Env) : Bool :=
  if e.sgLogs1.rc = 6 then e.sgClean2 else e.sgClean1

/-- The inner cleaning-tape unload neither exits the process nor does
anything but return: its loaded() status call succeeds, and when the
drive is non-empty and offline is set, the mt offline call succeeds. -/
def innerUnloadSafeB (e : Env) : Bool :=
  e.innerLoadedStatus.rc == 0
    && (e.innerLoadedRes == "0" || !e.offline || e.innerMtOffline.rc == 0)

/-- The cleaning Load+dwell+Unload cycle does not exit the process:
its loaded() status call succeeds, and when it reaches the mtx load
(empty target drive, nonempty picked label) that load succeeds and the
inner unload is safe. -/
def clnCycleSafeB (e : Env) : Bool :=
  e.clnLoadedStatus.rc == 0
    && (e.clnLoadedRes != "0" || pickedVol e == ""
        || (e.mtxLoad.rc == 0 && innerUnloadSafeB e))

/-- The sg-node/diagnostic path of checkdrive does not exit the process:
the platform is unsupported (early return 1), or a node is resolved,
the sg_logs status is 0 or the retried unit-attention 6, and any
triggered cleaning cycle is safe. -/
def sgPathSafeB (e : Env) : Bool :=
  match e.sgOut with
  | .unsupported => true
  | .cmdFail _ _ => false
  | .noMatch => false
  | .node _ =>
      (e.sgLogs1.rc == 0 || e.sgLogs1.rc == 6)
        && (!(cleanReq e) || !e.auto_clean || clnCycleSafeB e)

/-- The whole cleaning subsystem, entered from a successful unload,
does not exit the process: drive checking is off, or it stops at the
no-cleaning-tapes check, or the sg path is safe. -/
def cleaningSafeB (e : Env) : Bool :=
  !e.chk_drive || (e.auto_clean && e.cln_tapes.isEmpty) || sgPathSafeB e

/-- unload() passes its precondition checks and reaches the mtx unload
invocation: loaded() succeeds reporting a non-empty drive, the
destination-slot lookup is empty, and the optional offline step
succeeds. -/
def unloadReachesB (e : Env) : Bool :=
  e.loadedStatus.rc == 0 && e.loadedRes != "0" && e.vol.2 == ""
    && (!e.offline || e.mtOffline.rc == 0)

/-- load() passes its precondition checks and reaches the mtx load
invocation: loaded() succeeds reporting an empty drive and the
source-slot volume lookup is nonempty. -/
def loadReachesB (e : Env) : Bool :=
  e.loadedStatus.rc == 0 && e.loadedRes == "0" && e.vol.1 != ""

/-- transfer() passes its precondition check: nonempty source volume,
empty destination volume. -/
def transferReachesB (e : Env) : Bool :=
  e.vol.1 != "" && e.vol.2 == ""

/-- A successful external-tool result. -/
def tr0 : ToolRes := ⟨0, ""⟩

/-- A sample environment: drive 1 loaded from slot 14 with VOL001,
drive checking and auto-cleaning on, one cleaning tape CLN001 in slot
20, sg node resolved, diagnostics reporting "Cleaning action required",
and every external call succeeding, so the full cleaning cycle runs. -/
def eCleanCycle : Env := {
  slt := "14", drv_dev := "/dev/nst0", drv_idx := "1", vol := ("VOL001", ""),
  offline := false, chk_drive := true, auto_clean := true,
  cln_tapes := [("20", "CLN001")], pick := 0,
  loadedStatus := tr0, loadedRes := "14",
  mtOffline := tr0, mtxUnload := tr0,
  sgOut := .node "/dev/sg4", sgLogs1 := tr0, sgClean1 := true, sgClean2 := false,
  clnLoadedStatus := tr0, clnLoadedRes := "0",
  mtxLoad := tr0,
  innerLoadedStatus := tr0, innerLoadedRes := "20",
  innerMtOffline := tr0, innerMtxUnload := tr0,
  mtxTransfer := tr0, load_wait := 3,
  pollRC := fun _ => 0, pollErr := fun _ => "", pollFound := fun _ => false }

/-- Like `eCleanCycle`, but the mtx load of the cleaning tape fails
with status 2. -/
def eClnLoadFail : Env := { eCleanCycle with mtxLoad := ⟨2, "mtx: cannot load"⟩ }

/-- Environment for a failing Load: empty drive, source volume found,
mtx load fails with status 2. -/
def eLoadFail : Env := { eCleanCycle with loadedRes := "0", mtxLoad := ⟨2, "mtx: load error"⟩ }

/-- Environment for a failing Unload: mtx unload fails with status 3. -/
def eUnloadFail : Env := { eCleanCycle with mtxUnload := ⟨3, "mtx: unload error"⟩ }

/-- Environment for a failing Transfer: mtx transfer fails with status 4. -/
def eTransferFail : Env := { eCleanCycle with mtxTransfer := ⟨4, "mtx: transfer error"⟩ }

/-- Status snapshot in which slot 3 is empty and its volume sits in
drive 0 (loaded from slot 5). -/
def esSlotInDrive : List StatusLine :=
  [.driveFull 0 5 (some "VOL001"), .slotEmpty 3]

/-- Environment for the already-in-a-drive Load attempt on
`esSlotInDrive`: vol and loadedRes are the getvolname/loaded results on
that snapshot. -/
def eSlotInDrive : Env := { eCleanCycle with vol := ("VOL001", ""), loadedRes := "5" }

end MtxChanger

namespace MtxChanger

/-- With vxa_packetloader set, the loop body of list() never reaches
the accumulation statement, whatever the elements are. -/
lemma listAccum_vxa_true (ie : Bool) (lst : Option StatusLine) (l : List StatusLine) :
    listAccum ⟨ie, true⟩ lst l = "" := by
  induction l with
  | nil => rfl
  | cons e r ih => simp [listAccum, ih]

/-- Claim C10: for every status text, when the vxa_packetloader
configuration flag is true, the occupied-only listing (list) returns
the empty string: the per-element output accumulation is performed only
on the non-vxa branch of the loop, so no element line is ever appended
in the vxa_packetloader case. -/
theorem C10_vxa_list_empty (ie : Bool) (es : List StatusLine) :
    list ⟨ie, true⟩ es = "" := by
  unfold list
  exact listAccum_vxa_true ie _ _

/-- Claim C7: for every well-formed status text, the full-inventory
listing (listall) emits drive elements first, then storage slots, then
import/export slots, while the occupied-only listing (list) emits
storage slots and import/export slots first and drive elements last. -/
theorem C7_listing_order (cfg : Cfg) (es : List StatusLine) :
    (listallElems cfg es).map (listallLine cfg)
        = (es.filter isDriveLine).map (listallLine cfg)
          ++ (es.filter isSlotLine).map (listallLine cfg)
          ++ (if cfg.includeIE then (es.filter isIELine).map (listallLine cfg) else [])
      ∧ (listElems cfg es).map (listLine cfg)
        = (es.filter isSlotFullLine).map (listLine cfg)
          ++ (if cfg.includeIE then (es.filter isIEFullLine).map (listLine cfg) else [])
          ++ (es.filter isDriveFullLine).map (listLine cfg) := by
  constructor <;> cases h : cfg.includeIE <;> simp [listallElems, listElems, h]

/-- Claim C8 counterexample: a full drive without a VolumeTag is not
rendered with a placeholder label by listall; its raw (regex-truncated)
status text passes through unparsed, and the resulting line is not a
well-formed element line. -/
theorem C8_counterexample :
    listall ⟨true, false⟩ [StatusLine.driveFull 0 5 none]
        = "Data Transfer Element 0:Full (Storage Element 5 Loaded"
      ∧ wellFormedElemLine (listall ⟨true, false⟩ [StatusLine.driveFull 0 5 none]) = false := by
  constructor <;> decide

/-- Claim C8 (amended): only occupied storage slots without a VolumeTag
receive the NO_BARCODE placeholder (in both listings); an occupied
drive without a VolumeTag passes through both listings as its raw
unparsed element text, an occupied import/export element without a
VolumeTag passes through listall as raw text, and list() does not
collect it at all. -/
theorem C8_no_barcode (ie vxa : Bool) (i s : Nat) :
    listallLine ⟨ie, vxa⟩ (.slotFull i none) = "S:" ++ toString i ++ ":F:NO_BARCODE"
      ∧ listLine ⟨ie, vxa⟩ (.slotFull i none) = "S:" ++ toString i ++ ":F:NO_BARCODE"
      ∧ listallLine ⟨ie, vxa⟩ (.driveFull i s none) = elemStr (.driveFull i s none)
      ∧ listLine ⟨ie, vxa⟩ (.driveFull i s none) = elemStr (.driveFull i s none)
      ∧ listallLine ⟨ie, vxa⟩ (.ieFull i none) = elemStr (.ieFull i none)
      ∧ isIEFullLine (.ieFull i none) = false :=
  ⟨rfl, rfl, rfl, rfl, rfl, rfl⟩

/-- The inner (cleaning) unload leaves the clean/checkdrive counters of
the trace untouched, whatever happens. -/
lemma unload_cln_trace (e : Env) (slt : String) (vol : String × String) (t : Trace) :
    (unload_cln e slt vol t).trace.cleanCalls = t.cleanCalls
      ∧ (unload_cln e slt vol t).trace.checkdrives = t.checkdrives := by
  simp only [unload_cln, loadedCall, offlineStep]
  by_cases h1 : e.innerLoadedStatus.rc ≠ 0
  · simp [h1, Res.trace, pushOut]
  · simp only [h1, if_false, ite_false]
    by_cases h2 : e.innerLoadedRes = "0"
    · simp [h2, Res.trace, pushOut]
    · simp only [h2, if_false, ite_false]
      by_cases h3 : vol.2 ≠ ""
      · simp [h3, Res.trace, pushOut]
      · simp only [h3, if_false, ite_false]
        by_cases h4 : e.offline
        · by_cases h5 : e.innerMtOffline.rc ≠ 0
          · simp [h4, h5, Res.trace, pushOut]
          · by_cases h6 : e.innerMtxUnload.rc ≠ 0 <;>
              simp [h4, h5, h6, Res.trace, pushOut]
        · by_cases h6 : e.innerMtxUnload.rc ≠ 0 <;>
            simp [h4, h6, Res.trace, pushOut]

/-- The cleaning load leaves the clean/checkdrive counters untouched. -/
lemma load_cln_trace (e : Env) (slt : String) (vol : String × String) (t : Trace) :
    (load_cln e slt vol t).trace.cleanCalls = t.cleanCalls
      ∧ (load_cln e slt vol t).trace.checkdrives = t.checkdrives := by
  simp only [load_cln, loadedCall]
  by_cases h1 : e.clnLoadedStatus.rc ≠ 0
  · simp [h1, Res.trace, pushOut]
  · simp only [h1, if_false, ite_false]
    by_cases h2 : e.clnLoadedRes ≠ "0"
    · simp [h2, Res.trace, pushOut]
    · simp only [h2, if_false, ite_false]
      by_cases h3 : vol.1 = ""
      · simp [h3, Res.trace, pushOut]
      · simp only [h3, if_false, ite_false]
        by_cases h4 : e.mtxLoad.rc ≠ 0
        · simp [h4, Res.trace, pushOut]
        · simp only [h4, if_false, ite_false]
          have h := unload_cln_trace e slt vol { t with mtxLoads := t.mtxLoads + 1 }
          cases hu : unload_cln e slt vol { t with mtxLoads := t.mtxLoads + 1 } with
          | ret v t2 => rw [hu] at h; simpa [Res.trace] using h
          | exit c t2 => rw [hu] at h; simpa [Res.trace] using h

/-- clean() bumps the cleaning-cycle counter exactly once and leaves
the checkdrive counter untouched. -/
lemma clean_trace (e : Env) (t : Trace) :
    (clean e t).trace.cleanCalls = t.cleanCalls + 1
      ∧ (clean e t).trace.checkdrives = t.checkdrives := by
  simp only [clean]
  by_cases h1 : e.cln_tapes = []
  · simp [h1, Res.trace]
  · simp only [h1, if_false, ite_false]
    have h := load_cln_trace e (e.cln_tapes.getD (e.pick % e.cln_tapes.length) ("", "")).1
      ((e.cln_tapes.getD (e.pick % e.cln_tapes.length) ("", "")).2, "")
      { t with cleanCalls := t.cleanCalls + 1 }
    cases hu : load_cln e (e.cln_tapes.getD (e.pick % e.cln_tapes.length) ("", "")).1
        ((e.cln_tapes.getD (e.pick % e.cln_tapes.length) ("", "")).2, "")
        { t with cleanCalls := t.cleanCalls + 1 } with
    | ret v t2 => rw [hu] at h; simpa [Res.trace] using h
    | exit c t2 => rw [hu] at h; simpa [Res.trace] using h

/-- checkdrive() starts at most one cleaning cycle. -/
lemma checkdrive_trace (e : Env) (t : Trace) :
    (checkdrive e t).trace.cleanCalls ≤ t.cleanCalls + 1 := by
  simp only [checkdrive, get_sg_node, tapealerts]
  by_cases h1 : e.auto_clean ∧ e.cln_tapes = []
  · simp [h1, Res.trace]
  · simp only [h1, if_false, ite_false]
    cases hsg : e.sgOut with
    | unsupported => simp [Res.trace]
    | cmdFail c err => simp [Res.trace, pushOut]
    | noMatch => simp [Res.trace]
    | node s =>
      by_cases h6 : e.sgLogs1.rc = 6
      · simp only [h6, if_true, ite_true, if_pos]
        by_cases hreq : e.sgClean2 <;> by_cases hac : e.auto_clean
        all_goals simp only [hreq, hac, if_true, if_false, ite_true, ite_false]
        · have h := clean_trace e { t with checkdrives := t.checkdrives + 1 }
          cases hc : clean e { t with checkdrives := t.checkdrives + 1 } with
          | ret v t2 => rw [hc] at h; simp [Res.trace] at h ⊢; omega
          | exit c t2 => rw [hc] at h; simp [Res.trace] at h ⊢; omega
        all_goals simp [Res.trace]
      · by_cases h0 : e.sgLogs1.rc ≠ 0
        · simp [h6, h0, Res.trace, pushOut]
        · simp only [h6, h0, if_true, if_false, ite_true, ite_false]
          by_cases hreq : e.sgClean1 <;> by_cases hac : e.auto_clean
          all_goals simp only [hreq, hac, if_true, if_false, ite_true, ite_false]
          · have h := clean_trace e { t with checkdrives := t.checkdrives + 1 }
            cases hc : clean e { t with checkdrives := t.checkdrives + 1 } with
            | ret v t2 => rw [hc] at h; simp [Res.trace] at h ⊢; omega
            | exit c t2 => rw [hc] at h; simp [Res.trace] at h ⊢; omega
          all_goals simp [Res.trace]

/-- The whole outer unload starts at most one cleaning cycle. -/
lemma unload_cleanCalls (e : Env) (t : Trace) :
    (unload e t).trace.cleanCalls ≤ t.cleanCalls + 1 := by
  simp only [unload, loadedCall, offlineStep]
  by_cases h1 : e.loadedStatus.rc ≠ 0
  · simp [h1, Res.trace, pushOut]
  · simp only [h1, if_false, ite_false]
    by_cases h2 : e.loadedRes = "0"
    · simp [h2, Res.trace, pushOut]
    · simp only [h2, if_false, ite_false]
      by_cases h3 : e.vol.2 ≠ ""
      · simp [h3, Res.trace, pushOut]
      · simp only [h3, if_false, ite_false]
        by_cases h4 : e.offline
        · by_cases h5 : e.mtOffline.rc ≠ 0
          · simp [h4, h5, Res.trace, pushOut]
          · simp only [h4, h5, if_true, if_false, ite_true, ite_false]
            by_cases h7 : e.mtxUnload.rc ≠ 0
            · simp [h7, Res.trace, pushOut]
            · simp only [h7, if_false, ite_false]
              by_cases h8 : e.chk_drive
              · simp only [h8, if_true, ite_true]
                have h := checkdrive_trace e { t with mtxUnloads := t.mtxUnloads + 1 }
                cases hc : checkdrive e { t with mtxUnloads := t.mtxUnloads + 1 } with
                | ret v t2 =>
                  rw [hc] at h; simp [Res.trace] at h
                  by_cases hv : v = 1 <;> simp [hv, Res.trace] <;> omega
                | exit c t2 => rw [hc] at h; simp [Res.trace] at h ⊢; omega
              · simp [h8, Res.trace]
        · simp only [h4, Bool.false_eq_true, if_false, ite_false]
          by_cases h7 : e.mtxUnload.rc ≠ 0
          · simp [h7, Res.trace, pushOut]
          · simp only [h7, if_false, ite_false]
            by_cases h8 : e.chk_drive
            · simp only [h8, if_true, ite_true]
              have h := checkdrive_trace e { t with mtxUnloads := t.mtxUnloads + 1 }
              cases hc : checkdrive e { t with mtxUnloads := t.mtxUnloads + 1 } with
              | ret v t2 =>
                rw [hc] at h; simp [Res.trace] at h
                by_cases hv : v = 1 <;> simp [hv, Res.trace] <;> omega
              | exit c t2 => rw [hc] at h; simp [Res.trace] at h ⊢; omega
            · simp [h8, Res.trace]

/-- Claim C2: the inner unload of the cleaning tape is invoked with the
cleaning marker set and never re-enters the cleaning check
(checkdrive/clean), so no execution performs more than one cleaning
Load+dwell+Unload cycle per outer unload, even if the drive still
reports cleaning required after being cleaned. -/
theorem C2_single_cleaning_cycle (e : Env) (slt : String) (vol : String × String)
    (t : Trace) :
    (unload e t).trace.cleanCalls ≤ t.cleanCalls + 1
      ∧ (unload_cln e slt vol t).trace.checkdrives = t.checkdrives
      ∧ (unload_cln e slt vol t).trace.cleanCalls = t.cleanCalls :=
  ⟨unload_cleanCalls e t, (unload_cln_trace e slt vol t).2, (unload_cln_trace e slt vol t).1⟩

/-- When the offline flag is off or the mt offline call succeeds, the
offline step is a no-op. -/
lemma offlineStep_ok (off : Bool) (r : ToolRes) (t : Trace)
    (h : off = false ∨ r.rc = 0) : offlineStep off r t = .ret () t := by
  rcases h with h | h <;> simp [offlineStep, h]

/-- With an sg_logs status of 0 or the retried unit-attention 6,
tapealerts returns the cleaning-required outcome without aborting. -/
lemma tapealerts_ret (e : Env) (t : Trace) (h : e.sgLogs1.rc = 0 ∨ e.sgLogs1.rc = 6) :
    tapealerts e t = .ret (cleanReq e) t := by
  rcases h with h | h <;> simp [tapealerts, cleanReq, h]

/-- The inner cleaning unload always returns normally when its loaded()
status call succeeds and the offline step cannot fail. -/
lemma unload_cln_ret (e : Env) (slt : String) (vol : String × String) (t : Trace)
    (h1 : e.innerLoadedStatus.rc = 0)
    (h2 : e.innerLoadedRes = "0" ∨ e.offline = false ∨ e.innerMtOffline.rc = 0) :
    (unload_cln e slt vol t).isRet = true := by
  simp only [unload_cln, loadedCall]
  rw [if_neg (show ¬e.innerLoadedStatus.rc ≠ 0 by simp [h1])]
  dsimp only
  by_cases hr : e.innerLoadedRes = "0"
  · simp [hr, Res.isRet]
  · rw [if_neg hr]
    by_cases hv : vol.2 ≠ ""
    · simp [hv, Res.isRet]
    · rw [if_neg hv, offlineStep_ok e.offline e.innerMtOffline t (h2.resolve_left hr)]
      dsimp only
      by_cases hm : e.innerMtxUnload.rc ≠ 0 <;> simp [hm, Res.isRet]

/-- The cleaning load returns normally when its loaded() status call
succeeds and, in case it reaches the mtx load, that load succeeds and
the inner unload is safe. -/
lemma load_cln_ret (e : Env) (slt : String) (vol : String × String) (t : Trace)
    (h1 : e.clnLoadedStatus.rc = 0)
    (h2 : e.clnLoadedRes = "0" → vol.1 ≠ "" →
      e.mtxLoad.rc = 0 ∧ e.innerLoadedStatus.rc = 0
        ∧ (e.innerLoadedRes = "0" ∨ e.offline = false ∨ e.innerMtOffline.rc = 0)) :
    (load_cln e slt vol t).isRet = true := by
  by_cases hr : e.clnLoadedRes = "0"
  case neg => simp [load_cln, loadedCall, h1, hr, Res.isRet]
  by_cases hv : vol.1 = ""
  · simp [load_cln, loadedCall, h1, hr, hv, Res.isRet]
  · obtain ⟨hm, hs1, hs2⟩ := h2 hr hv
    have hret := unload_cln_ret e slt vol { t with mtxLoads := t.mtxLoads + 1 } hs1 hs2
    simp only [load_cln, loadedCall]
    rw [if_neg (show ¬e.clnLoadedStatus.rc ≠ 0 by simp [h1])]
    dsimp only
    rw [if_neg (show ¬e.clnLoadedRes ≠ "0" by simp [hr]), if_neg hv,
      if_neg (show ¬e.mtxLoad.rc ≠ 0 by simp [hm])]
    cases hu : unload_cln e slt vol { t with mtxLoads := t.mtxLoads + 1 } with
    | ret v t2 => simp [Res.isRet]
    | exit c t2 => rw [hu] at hret; simp [Res.isRet] at hret

/-- clean() returns normally under the cleaning-cycle safety
conditions and a nonempty candidate list. -/
lemma clean_ret (e : Env) (t : Trace) (hne : e.cln_tapes ≠ [])
    (h1 : e.clnLoadedStatus.rc = 0)
    (h2 : e.clnLoadedRes = "0" → pickedVol e ≠ "" →
      e.mtxLoad.rc = 0 ∧ e.innerLoadedStatus.rc = 0
        ∧ (e.innerLoadedRes = "0" ∨ e.offline = false ∨ e.innerMtOffline.rc = 0)) :
    (clean e t).isRet = true := by
  have hret := load_cln_ret e (e.cln_tapes.getD (e.pick % e.cln_tapes.length) ("", "")).1
    ((e.cln_tapes.getD (e.pick % e.cln_tapes.length) ("", "")).2, "")
    { t with cleanCalls := t.cleanCalls + 1 } h1 (fun ha hb => h2 ha hb)
  simp only [clean]
  simp only [hne, ite_false, if_neg, not_false_eq_true, reduceIte]
  cases hu : load_cln e (e.cln_tapes.getD (e.pick % e.cln_tapes.length) ("", "")).1
      ((e.cln_tapes.getD (e.pick % e.cln_tapes.length) ("", "")).2, "")
      { t with cleanCalls := t.cleanCalls + 1 } with
  | ret v t2 => simp [Res.isRet]
  | exit c t2 => rw [hu] at hret; simp [Res.isRet] at hret

/-- Unpack the Boolean cleaning-cycle safety predicate. -/
lemma clnCycleSafe_spec (e : Env) (h : clnCycleSafeB e = true) :
    e.clnLoadedStatus.rc = 0
      ∧ (e.clnLoadedRes = "0" → pickedVol e ≠ "" →
          e.mtxLoad.rc = 0 ∧ e.innerLoadedStatus.rc = 0
            ∧ (e.innerLoadedRes = "0" ∨ e.offline = false ∨ e.innerMtOffline.rc = 0)) := by
  simp only [clnCycleSafeB, innerUnloadSafeB, Bool.and_eq_true, Bool.or_eq_true,
    beq_iff_eq, bne_iff_ne, Bool.not_eq_true'] at h
  obtain ⟨ha, hb⟩ := h
  refine ⟨ha, fun hc hd => ?_⟩
  rcases hb with (hb | hb) | hb
  · exact absurd hc hb
  · exact absurd hb hd
  · obtain ⟨hm, hi1, hi2⟩ := hb
    exact ⟨hm, hi1, by tauto⟩

/-- checkdrive() returns normally when the no-cleaning-tapes
short-circuit fires or the sg path is safe. -/
lemma checkdrive_ret (e : Env) (t : Trace)
    (hsafe : (e.auto_clean = true ∧ e.cln_tapes = []) ∨ sgPathSafeB e = true) :
    (checkdrive e t).isRet = true := by
  by_cases hg : e.auto_clean ∧ e.cln_tapes = []
  · simp [checkdrive, hg, Res.isRet]
  · have hs : sgPathSafeB e = true := by
      rcases hsafe with h | h
      · exact absurd h hg
      · exact h
    simp only [checkdrive, get_sg_node]
    rw [if_neg hg]
    cases hsg : e.sgOut with
    | unsupported => simp [Res.isRet]
    | cmdFail c err => simp [sgPathSafeB, hsg] at hs
    | noMatch => simp [sgPathSafeB, hsg] at hs
    | node s =>
      dsimp only
      simp only [sgPathSafeB, hsg, Bool.and_eq_true, Bool.or_eq_true, beq_iff_eq,
        Bool.not_eq_true'] at hs
      obtain ⟨h6, hrest⟩ := hs
      rw [tapealerts_ret e _ h6]
      dsimp only
      cases hcr : cleanReq e
      · simp [Res.isRet]
      · rcases hrest with (hrest | hrest) | hrest
        · rw [hcr] at hrest; cases hrest
        · simp [hrest, Res.isRet]
        · by_cases hac : e.auto_clean
          case neg => simp [hac, Res.isRet]
          have hne : e.cln_tapes ≠ [] := fun hl => hg ⟨hac, hl⟩
          obtain ⟨hc1, hc2⟩ := clnCycleSafe_spec e hrest
          have hcl := clean_ret e { t with checkdrives := t.checkdrives + 1 } hne hc1 hc2
          simp only [hac, ite_true, if_pos]
          cases hcc : clean e { t with checkdrives := t.checkdrives + 1 } with
          | ret v t2 => simp [Res.isRet]
          | exit c t2 => rw [hcc] at hcl; simp [Res.isRet] at hcl

/-- Claim C1 (amended): an unload whose mtx unload succeeds reports 0
to the caller whenever the cleaning subsystem either stops early
(drive checking off, no cleaning tapes with auto-clean on, sg-node
resolution on an unsupported platform, no cleaning required, auto-clean
off) or runs a cleaning cycle whose sg_logs status is 0 or the retried
unit-attention 6, whose loaded() status call and mtx cleaning-tape load
succeed, and whose inner unload cannot abort; outside this envelope the
cleaning subsystem aborts the process with the failing tool's status
(see the counterexample). -/
theorem C1_cleaning_advisory (e : Env) (t : Trace)
    (h1 : unloadReachesB e = true) (h2 : e.mtxUnload.rc = 0)
    (h3 : cleaningSafeB e = true) :
    (unload e t).retVal? = some 0 := by
  simp only [unloadReachesB, Bool.and_eq_true, beq_iff_eq, bne_iff_ne,
    Bool.or_eq_true, Bool.not_eq_true'] at h1
  obtain ⟨⟨⟨ha, hb⟩, hc⟩, hd⟩ := h1
  simp only [cleaningSafeB, Bool.or_eq_true, Bool.and_eq_true,
    Bool.not_eq_true', List.isEmpty_iff] at h3
  simp only [unload, loadedCall]
  rw [if_neg (show ¬e.loadedStatus.rc ≠ 0 by simp [ha])]
  dsimp only
  rw [if_neg hb, if_neg (show ¬e.vol.2 ≠ "" by simp [hc]),
    offlineStep_ok e.offline e.mtOffline t hd]
  dsimp only
  rw [if_neg (show ¬e.mtxUnload.rc ≠ 0 by simp [h2])]
  by_cases hcd : e.chk_drive
  case neg => simp [hcd, h2, Res.retVal?]
  have hsafe : (e.auto_clean = true ∧ e.cln_tapes = []) ∨ sgPathSafeB e = true := by
    rcases h3 with (h3 | h3) | h3
    · rw [hcd] at h3; cases h3
    · exact Or.inl h3
    · exact Or.inr h3
  have hret := checkdrive_ret e { t with mtxUnloads := t.mtxUnloads + 1 } hsafe
  rw [if_pos hcd]
  cases hcc : checkdrive e { t with mtxUnloads := t.mtxUnloads + 1 } with
  | ret v t2 => by_cases hv : v = 1 <;> simp [hv, h2, Res.retVal?]
  | exit c t2 => rw [hcc] at hret; simp [Res.isRet] at hret

/-- Witness for C1: a fully successful cleaning cycle after a
successful unload reports 0. -/
theorem C1_witness : (unload eCleanCycle Trace.init).retVal? = some 0 :=
  C1_cleaning_advisory eCleanCycle Trace.init (by decide) (by decide) (by decide)

/-- Claim C1 counterexample: with the drive reporting cleaning
required, a cleaning tape available and the mtx load of the cleaning
tape failing with status 2, the unload whose own mtx unload succeeded
does not report 0 - the process aborts with status 2. -/
theorem C1_counterexample :
    (unload eClnLoadFail Trace.init).retVal? = none
      ∧ (unload eClnLoadFail Trace.init).exitCode? = some 2 := by
  constructor <;> decide

/-- A load whose loaded() status call succeeds fails with code 1,
without invoking mtx load, when the drive is occupied or the volume
lookup is empty. -/
lemma load_precond_fail (e : Env) (t : Trace)
    (h0 : e.loadedStatus.rc = 0)
    (h : e.loadedRes ≠ "0" ∨ e.vol.1 = "") :
    (load e t).retVal? = some 1 ∧ (load e t).trace.mtxLoads = t.mtxLoads := by
  simp only [load, loadedCall]
  rw [if_neg (show ¬e.loadedStatus.rc ≠ 0 by simp [h0])]
  dsimp only
  by_cases hr : e.loadedRes = "0"
  · rcases h with h | h
    · exact absurd hr h
    · rw [if_neg (show ¬e.loadedRes ≠ "0" by simp [hr]), if_pos h]
      simp [Res.retVal?, Res.trace, pushOut]
  · rw [if_pos hr]
    simp [Res.retVal?, Res.trace, pushOut]

/-- Claim C4: for every load invocation in which the status output
reports the target drive already occupied (loaded() returns a non-zero
slot), load returns failure code 1 and the external mtx load command is
never invoked; the same holds when the destination drive is empty but
the resolved source-slot volume lookup is empty. -/
theorem C4_load_preconditions (e : Env) (t : Trace)
    (h0 : e.loadedStatus.rc = 0)
    (h : e.loadedRes ≠ "0" ∨ (e.loadedRes = "0" ∧ e.vol.1 = "")) :
    (load e t).retVal? = some 1 ∧ (load e t).trace.mtxLoads = t.mtxLoads :=
  load_precond_fail e t h0 (h.imp id And.right)

/-- Witness for C4: a load against the occupied drive of `eCleanCycle`
fails with 1 and never runs mtx load. -/
theorem C4_witness :
    (load eCleanCycle Trace.init).retVal? = some 1
      ∧ (load eCleanCycle Trace.init).trace.mtxLoads = Trace.init.mtxLoads :=
  C4_load_preconditions eCleanCycle Trace.init (by decide) (Or.inl (by decide))

/-- Claim C5: for every unload invocation in which the destination slot
is reported occupied in the shared inventory snapshot (or the source
drive is reported empty), unload returns failure code 1 and the
external mtx unload command is never invoked. -/
theorem C5_unload_preconditions (e : Env) (t : Trace)
    (h0 : e.loadedStatus.rc = 0)
    (h : e.vol.2 ≠ "" ∨ e.loadedRes = "0") :
    (unload e t).retVal? = some 1 ∧ (unload e t).trace.mtxUnloads = t.mtxUnloads := by
  simp only [unload, loadedCall]
  rw [if_neg (show ¬e.loadedStatus.rc ≠ 0 by simp [h0])]
  dsimp only
  by_cases hr : e.loadedRes = "0"
  · rw [if_pos hr]
    simp [Res.retVal?, Res.trace, pushOut]
  · rw [if_neg hr]
    rcases h with h | h
    · rw [if_pos h]
      simp [Res.retVal?, Res.trace, pushOut]
    · exact absurd h hr

/-- Witness for C5: an unload whose destination slot holds VOL999 fails
with 1 and never runs mtx unload. -/
theorem C5_witness :
    (unload { eCleanCycle with vol := ("VOL001", "VOL999") } Trace.init).retVal? = some 1
      ∧ (unload { eCleanCycle with vol := ("VOL001", "VOL999") } Trace.init).trace.mtxUnloads
          = Trace.init.mtxUnloads :=
  C5_unload_preconditions { eCleanCycle with vol := ("VOL001", "VOL999") } Trace.init
    (by decide) (Or.inl (by decide))

/-- Claim C3: when the external mtx tool returns a non-zero status, a
Load terminates the process with that same status (after echoing the
failure to stdout), while Unload and Transfer echo the failure to
stdout and return the tool's status code to the caller as a normal
function return value. -/
theorem C3_tool_failure_handling (eL eU eT : Env) (tL tU tT : Trace) (cL cU cT : Nat)
    (hL1 : loadReachesB eL = true) (hL2 : eL.mtxLoad.rc = cL) (hL3 : cL ≠ 0)
    (hU1 : unloadReachesB eU = true) (hU2 : eU.mtxUnload.rc = cU) (hU3 : cU ≠ 0)
    (hT1 : transferReachesB eT = true) (hT2 : eT.mtxTransfer.rc = cT) (hT3 : cT ≠ 0) :
    load eL tL = .exit cL (pushOut { tL with mtxLoads := tL.mtxLoads + 1 }
        (loadFailTxt eL.drv_dev eL.drv_idx eL.slt eL.vol.1 eL.mtxLoad.err))
      ∧ unload eU tU = .ret cU (pushOut { tU with mtxUnloads := tU.mtxUnloads + 1 }
        (unloadFailTxt eU.drv_dev eU.drv_idx eU.slt eU.vol.1 eU.mtxUnload.err))
      ∧ transfer eT tT = .ret cT (pushOut { tT with mtxTransfers := tT.mtxTransfers + 1 }
        (transferFailTxt eT.slt eT.drv_dev eT.vol.1 eT.vol.2 eT.mtxTransfer.err)) := by
  refine ⟨?_, ?_, ?_⟩
  · simp only [loadReachesB, Bool.and_eq_true, beq_iff_eq, bne_iff_ne] at hL1
    obtain ⟨⟨ha, hb⟩, hc⟩ := hL1
    simp only [load, loadedCall]
    rw [if_neg (show ¬eL.loadedStatus.rc ≠ 0 by simp [ha])]
    dsimp only
    rw [if_neg (show ¬eL.loadedRes ≠ "0" by simp [hb]), if_neg hc,
      if_pos (show eL.mtxLoad.rc ≠ 0 by rw [hL2]; exact hL3), hL2]
  · simp only [unloadReachesB, Bool.and_eq_true, beq_iff_eq, bne_iff_ne,
      Bool.or_eq_true, Bool.not_eq_true'] at hU1
    obtain ⟨⟨⟨ha, hb⟩, hc⟩, hd⟩ := hU1
    simp only [unload, loadedCall]
    rw [if_neg (show ¬eU.loadedStatus.rc ≠ 0 by simp [ha])]
    dsimp only
    rw [if_neg hb, if_neg (show ¬eU.vol.2 ≠ "" by simp [hc]),
      offlineStep_ok eU.offline eU.mtOffline tU hd]
    dsimp only
    rw [if_pos (show eU.mtxUnload.rc ≠ 0 by rw [hU2]; exact hU3), hU2]
  · simp only [transferReachesB, Bool.and_eq_true, beq_iff_eq, bne_iff_ne] at hT1
    obtain ⟨ha, hb⟩ := hT1
    simp only [transfer]
    rw [if_neg (show ¬(eT.vol.1 = "" ∨ eT.vol.2 ≠ "") by simp [ha, hb])]
    rw [if_pos (show eT.mtxTransfer.rc ≠ 0 by rw [hT2]; exact hT3), hT2]

/-- Witness for C3: concrete failing load, unload and transfer runs
produce exit 2, return 3 and return 4 respectively. -/
theorem C3_witness :
    (load eLoadFail Trace.init).exitCode? = some 2
      ∧ (unload eUnloadFail Trace.init).retVal? = some 3
      ∧ (transfer eTransferFail Trace.init).retVal? = some 4 := by
  have h := C3_tool_failure_handling eLoadFail eUnloadFail eTransferFail
    Trace.init Trace.init Trace.init 2 3 4 (by decide) (by decide) (by decide)
    (by decide) (by decide) (by decide) (by decide) (by decide) (by decide)
  rw [h.1, h.2.1, h.2.2]
  exact ⟨rfl, rfl, rfl⟩

/-- When no poll from s on succeeds with the marker, the waiter polls
once per remaining second, sleeps after each poll, and returns 1. -/
lemma wfd_timeout_aux (lw : Nat) (rcf : Nat → Nat) (errf : Nat → String)
    (foundf : Nat → Bool) :
    ∀ n s t, lw + 1 - s = n →
      (∀ k, s ≤ k → k ≤ lw → rcf k = 0 ∧ foundf k = false) →
      wait_for_drive lw rcf errf foundf s t
        = .ret 1 { t with polls := t.polls + n, sleeps1 := t.sleeps1 + n } := by
  intro n
  induction n with
  | zero =>
    intro s t hn _
    rw [wait_for_drive, dif_neg (by omega)]
    simp
  | succ n ih =>
    intro s t hn hk
    have hs : s ≤ lw := by omega
    have h1 := hk s le_rfl hs
    rw [wait_for_drive, dif_pos hs]
    dsimp only
    rw [if_neg (by simp [h1.1]), if_neg (by simp [h1.2])]
    rw [ih (s + 1) _ (by omega) (fun k hk1 hk2 => hk k (by omega) hk2)]
    congr 1
    simp only [Trace.mk.injEq, and_true, true_and]
    omega

/-- When some poll at or before the ceiling finds the marker and no
poll fails, the waiter returns 0. -/
lemma wfd_found_aux (lw : Nat) (rcf : Nat → Nat) (errf : Nat → String)
    (foundf : Nat → Bool) :
    ∀ n s t, lw + 1 - s = n →
      (∀ k, s ≤ k → k ≤ lw → rcf k = 0) →
      (∃ j, s ≤ j ∧ j ≤ lw ∧ foundf j = true) →
      (wait_for_drive lw rcf errf foundf s t).retVal? = some 0 := by
  intro n
  induction n with
  | zero =>
    intro s t hn hrc hex
    obtain ⟨j, hj1, hj2, _⟩ := hex
    omega
  | succ n ih =>
    intro s t hn hrc hex
    have hs : s ≤ lw := by omega
    rw [wait_for_drive, dif_pos hs]
    dsimp only
    rw [if_neg (by simp [hrc s le_rfl hs])]
    by_cases hf : foundf s
    · rw [if_pos hf]; rfl
    · rw [if_neg hf]
      refine ih (s + 1) _ (by omega) (fun k hk1 hk2 => hrc k (by omega) hk2) ?_
      obtain ⟨j, hj1, hj2, hj3⟩ := hex
      refine ⟨j, ?_, hj2, hj3⟩
      rcases Nat.eq_or_lt_of_le hj1 with h | h
      · subst h; exact absurd hj3 hf
      · omega

/-- Claim C6: when every mt status poll succeeds, a load-readiness wait
in which the platform ready marker never appears polls exactly
load_wait + 1 times at 1-second spacing (one sleep after each
unsuccessful poll) and then returns the timeout code 1 as a normal
return value - distinguishable from a generic tool failure, which is a
process exit; if the marker appears at some poll at or before the
ceiling, the wait returns success 0. -/
theorem C6_wait_for_drive (lw : Nat) (rcf : Nat → Nat) (errf : Nat → String)
    (foundf : Nat → Bool) (t : Trace)
    (hrc : ∀ k, k ≤ lw → rcf k = 0) :
    ((∀ k, k ≤ lw → foundf k = false) →
        wait_for_drive lw rcf errf foundf 0 t
          = .ret 1 { t with polls := t.polls + (lw + 1), sleeps1 := t.sleeps1 + (lw + 1) })
      ∧ (∀ j, j ≤ lw → foundf j = true →
          (wait_for_drive lw rcf errf foundf 0 t).retVal? = some 0) := by
  constructor
  · intro hnf
    exact wfd_timeout_aux lw rcf errf foundf (lw + 1) 0 t (by omega)
      (fun k _ hk2 => ⟨hrc k hk2, hnf k hk2⟩)
  · intro j hj hfj
    exact wfd_found_aux lw rcf errf foundf (lw + 1) 0 t (by omega)
      (fun k _ hk2 => hrc k hk2) ⟨j, Nat.zero_le j, hj, hfj⟩

/-- Witness for C6: with ceiling 1, a never-ready drive yields return 1
after 2 polls, and a drive ready at the first poll yields return 0. -/
theorem C6_witness :
    (wait_for_drive 1 (fun _ => 0) (fun _ => "") (fun _ => false) 0 Trace.init).retVal? = some 1
      ∧ (wait_for_drive 1 (fun _ => 0) (fun _ => "") (fun k => decide (k = 0)) 0
          Trace.init).retVal? = some 0 := by
  constructor
  · rw [(C6_wait_for_drive 1 (fun _ => 0) (fun _ => "") (fun _ => false) Trace.init
      (fun _ _ => rfl)).1 (fun _ _ => rfl)]
    rfl
  · exact (C6_wait_for_drive 1 (fun _ => 0) (fun _ => "") (fun k => decide (k = 0)) Trace.init
      (fun _ _ => rfl)).2 0 (by omega) (by decide)

/-- Claim C9: for a load invocation whose nominal source slot is empty
because the media is already sitting in the target drive, the volume
lookup returns the drive's volume - a distinct outcome from the empty
pair that an empty slot yields - and load surfaces an explicit failure
(code 1, no mtx load invoked) rather than silently loading nothing. -/
theorem C9_source_slot_in_drive (cfg : Cfg) (es : List StatusLine) (slotArg idxArg : Nat)
    (v : String) (e : Env) (t : Trace)
    (h1 : (listallElems cfg es).findSome? (siFullMatch slotArg) = none)
    (h2 : (listallElems cfg es).findSome? (dFullMatch idxArg) = some v)
    (hv : v ≠ "")
    (hL : loaded es idxArg ≠ "0")
    (_he1 : e.vol = getvolname_load cfg es slotArg idxArg)
    (he2 : e.loadedRes = loaded es idxArg)
    (he3 : e.loadedStatus.rc = 0) :
    getvolname_load cfg es slotArg idxArg = (v, "")
      ∧ getvolname_load cfg es slotArg idxArg ≠ ("", "")
      ∧ (load e t).retVal? = some 1
      ∧ (load e t).trace.mtxLoads = t.mtxLoads := by
  have hg : getvolname_load cfg es slotArg idxArg = (v, "") := by
    simp [getvolname_load, h1, h2]
  have hp := load_precond_fail e t he3 (Or.inl (by rw [he2]; exact hL))
  exact ⟨hg, by simp [hg, hv], hp.1, hp.2⟩

/-- Witness for C9: on `esSlotInDrive`, slot 3 is empty, VOL001 sits in
drive 0, the lookup returns it, and the load fails with 1. -/
theorem C9_witness :
    getvolname_load ⟨true, false⟩ esSlotInDrive 3 0 = ("VOL001", "")
      ∧ getvolname_load ⟨true, false⟩ esSlotInDrive 3 0 ≠ ("", "")
      ∧ (load eSlotInDrive Trace.init).retVal? = some 1
      ∧ (load eSlotInDrive Trace.init).trace.mtxLoads = Trace.init.mtxLoads :=
  C9_source_slot_in_drive ⟨true, false⟩ esSlotInDrive 3 0 "VOL001" eSlotInDrive Trace.init
    (by decide) (by decide) (by decide) (by decide) (by decide) (by decide) (by decide)

end MtxChanger
